import Mathlib

/-!
Shallow embedding of the `openems-energy-scripts` repository: scripts that
synthesize per-minute daily power series for the machines of a glass
manufacturing line (furnace, melting furnace, forehearth, forming machine,
lehr oven, batch mixer) and a solar-panel supply.

Python floats are embedded as exact rationals (`ℚ`).  The numpy global
random source is embedded explicitly: `np.random.seed s` replaces the global
state by `⟨s, 0⟩`, and every standard-normal draw consumes one position of
the stream belonging to the current seed.  The stream of standard-normal
draws itself is an unknown deterministic function, so every definition is
parameterised by `g : Gauss`, with `g seed pos` the `pos`-th standard-normal
draw of the stream seeded with `seed`.  `np.random.normal mean std` is the
affine image `mean + std * draw` of a standard-normal draw, which is exactly
how numpy produces it (so a zero `std` yields exactly `mean`).
-/

/-- Global numpy RNG state: the seed installed by the most recent
`np.random.seed` call together with the position reached in that seed's
standard-normal draw stream. -/
structure RNGState where
  seed : Nat
  pos : Nat

/-- An abstract deterministic standard-normal stream: `g seed pos` is the
`pos`-th standard-normal draw after seeding with `seed`. -/
abbrev Gauss := Nat → Nat → ℚ

/-- Effect of `np.random.seed s` on the global state. -/
def seedState (s : Nat) : RNGState := ⟨s, 0⟩

/-- Embedding of `np.random.normal(mean, std, n)` with scalar arguments:
`n` draws taken sequentially from the current stream, each one the affine
image of a standard-normal draw.  Returns the array and the advanced
global state. -/
def npNormal (g : Gauss) (σ : RNGState) (mean std : ℚ) (n : Nat) :
    List ℚ × RNGState :=
  (List.ofFn (fun i : Fin n => mean + std * g σ.seed (σ.pos + i)),
   ⟨σ.seed, σ.pos + n⟩)

/-- Embedding of `np.random.normal(means, stds)` with array mean and array
standard deviation, applied elementwise. -/
def npNormalVec (g : Gauss) (σ : RNGState) (means stds : List ℚ) :
    List ℚ × RNGState :=
  (List.ofFn (fun i : Fin means.length =>
      means.get i + stds.getD i 0 * g σ.seed (σ.pos + i)),
   ⟨σ.seed, σ.pos + means.length⟩)

/-- Embedding of `np.random.normal(0, stds)` with scalar zero mean broadcast
against an array standard deviation. -/
def npNormalZero (g : Gauss) (σ : RNGState) (stds : List ℚ) :
    List ℚ × RNGState :=
  (List.ofFn (fun i : Fin stds.length =>
      0 + stds.get i * g σ.seed (σ.pos + i)),
   ⟨σ.seed, σ.pos + stds.length⟩)

/-- Embedding of `np.round` on one value: round half to even (banker's
rounding), which is numpy's documented rounding mode, producing an
integer (the scripts follow it with `.astype(int)`). -/
def npRound (x : ℚ) : ℤ :=
  if x - ⌊x⌋ < 1/2 then ⌊x⌋
  else if 1/2 < x - ⌊x⌋ then ⌊x⌋ + 1
  else if 2 ∣ ⌊x⌋ then ⌊x⌋ else ⌊x⌋ + 1

/-- Embedding of `np.tile` for one-dimensional arrays. -/
def npTile (seg : List ℚ) (k : Nat) : List ℚ :=
  (List.replicate k seg).flatten

theorem npRound_intCast (n : ℤ) : npRound (n : ℚ) = n := by
  simp [npRound, Int.floor_intCast]

theorem npRound_zero : npRound 0 = 0 := by
  simpa using npRound_intCast 0

theorem npRound_nonneg {x : ℚ} (h : 0 ≤ x) : 0 ≤ npRound x := by
  have hf : (0 : ℤ) ≤ ⌊x⌋ := Int.floor_nonneg.mpr h
  unfold npRound
  split
  · exact hf
  · split
    · omega
    · split <;> omega

theorem npRound_neg_of_le {x : ℚ} (h : x ≤ -1) : npRound x < 0 := by
  have hf : ⌊x⌋ ≤ -1 := by
    have h1 : ⌊x⌋ ≤ ⌊(-1 : ℚ)⌋ := Int.floor_le_floor h
    have h2 : ⌊(-1 : ℚ)⌋ = -1 := by norm_num
    omega
  unfold npRound
  split
  · omega
  · rename_i h1
    push_neg at h1
    have hx : (⌊x⌋ : ℚ) + 1/2 ≤ x := by linarith
    have hlt : (⌊x⌋ : ℚ) ≤ -3/2 := by linarith
    have hf2 : ⌊x⌋ ≤ -2 := by
      by_contra hcon
      push_neg at hcon
      have : (-1 : ℚ) ≤ (⌊x⌋ : ℚ) := by exact_mod_cast hcon
      linarith
    split
    · omega
    · split <;> omega

theorem npRound_half_even (n : ℤ) :
    npRound ((n : ℚ) + 1/2) = if 2 ∣ n then n else n + 1 := by
  have hfloor : ⌊(n : ℚ) + 1/2⌋ = n := by
    rw [Int.floor_eq_iff]
    constructor <;> norm_num
  unfold npRound
  rw [hfloor]
  norm_num

theorem length_npTile (seg : List ℚ) (k : Nat) :
    (npTile seg k).length = k * seg.length := by
  induction k with
  | zero => simp [npTile]
  | succ k ih =>
    simp only [npTile, List.replicate_succ, List.flatten_cons, List.length_append]
    simp only [npTile] at ih
    rw [ih]
    ring

theorem getD_npTile (seg : List ℚ) (k i : Nat)
    (h : i < k * seg.length) :
    (npTile seg k).getD i 0 = seg.getD (i % seg.length) 0 := by
  induction k generalizing i with
  | zero => omega
  | succ k ih =>
    have hstep : npTile seg (k + 1) = seg ++ npTile seg k := by
      simp [npTile, List.replicate_succ]
    rw [hstep]
    by_cases hi : i < seg.length
    · rw [List.getD_append _ _ _ _ hi, Nat.mod_eq_of_lt hi]
    · push_neg at hi
      rw [List.getD_append_right _ _ _ _ hi]
      have hb : i - seg.length < k * seg.length := by
        have hsm : (k + 1) * seg.length = k * seg.length + seg.length :=
          Nat.succ_mul k seg.length
        omega
      rw [ih _ hb]
      congr 1
      conv_rhs => rw [show i = (i - seg.length) + seg.length by omega]
      rw [Nat.add_mod_right]

theorem getD_ofFn {n : Nat} (f : Fin n → ℚ) {i : Nat} (h : i < n) (d : ℚ) :
    (List.ofFn f).getD i d = f ⟨i, h⟩ := by
  rw [List.getD_eq_getElem _ _ (by simpa using h)]
  simp

theorem getD_map_of_lt (f : ℚ → ℚ) (l : List ℚ) {i : Nat}
    (h : i < l.length) (d e : ℚ) :
    (l.map f).getD i d = f (l.getD i e) := by
  rw [List.getD_eq_getElem _ _ (by simpa using h),
    List.getD_eq_getElem _ _ h]
  simp

theorem getD_map_round (l : List ℚ) {i : Nat} (h : i < l.length) :
    (l.map npRound).getD i 0 = npRound (l.getD i 0) := by
  rw [List.getD_eq_getElem _ _ (by simpa using h),
    List.getD_eq_getElem _ _ h]
  simp

theorem getD_map_int_cast (l : List ℤ) (f : ℤ → ℚ) {i : Nat}
    (h : i < l.length) (d : ℚ) :
    (l.map f).getD i d = f (l.getD i 0) := by
  rw [List.getD_eq_getElem _ _ (by simpa using h),
    List.getD_eq_getElem _ _ h]
  simp

theorem getD_take_of_lt (l : List ℚ) {n i : Nat} (hi : i < n)
    (hl : i < l.length) (d : ℚ) :
    (l.take n).getD i d = l.getD i d := by
  rw [List.getD_eq_getElem _ _ (by simp; omega),
    List.getD_eq_getElem _ _ hl]
  simp [List.getElem_take]

theorem getD_zipWith (f : ℚ → ℚ → ℚ) (l l' : List ℚ) {i : Nat}
    (h : i < l.length) (h' : i < l'.length) (d : ℚ) :
    (List.zipWith f l l').getD i d = f (l.getD i 0) (l'.getD i 0) := by
  rw [List.getD_eq_getElem _ _ (by simp; omega),
    List.getD_eq_getElem _ _ h, List.getD_eq_getElem _ _ h']
  simp

theorem getD_npNormalVec (g : Gauss) (σ : RNGState) (means stds : List ℚ)
    {i : Nat} (h : i < means.length) :
    (npNormalVec g σ means stds).1.getD i 0 =
      means.getD i 0 + stds.getD i 0 * g σ.seed (σ.pos + i) := by
  simp only [npNormalVec]
  rw [getD_ofFn _ h]
  congr 1
  rw [List.getD_eq_getElem _ _ h]
  simp

/-! ## src/machines/furnace.py
Constant archetype: seed 42, additive noise `normal(0, base*0.01)`, then the
negative entries are clamped to zero. -/

namespace Furnace

def num_minutes : Nat := 1440

def base_consumption : ℚ := 1000

/-- Embedding of the module-level pipeline of `furnace.py`: the series written
to the CSV file. -/
def energy_consumption (g : Gauss) : List ℚ :=
  let noise := (npNormal g (seedState 42) 0 (base_consumption * 0.01) num_minutes).1
  (noise.map (fun z => base_consumption + z)).map (fun x => if x < 0 then 0 else x)

end Furnace

/-! ## src/machines/melting_furnace/melting_furnace.py
Production-driven archetype with a base load, seeded once with 48; the base
series consumes stream positions `0..1439` and the production series
positions `1440..2879`. -/

namespace MeltingFurnace

def HOURS_PER_DAY : ℚ := 24
def DECIMAL_TO_PERCENTAGE : ℚ := 100
def WATTS_PER_KILOWATT : ℚ := 1000
def DATA_POINTS : Nat := 1440
def FURNACE_AGE : ℚ := 5
def AGING_FACTOR : ℚ := 0.02
def PRODUCTION_QUANTITY : ℚ := 200
def PRODUCTION_VARIABILITY : ℚ := 0.03
def BASE_CONSUMPTION : ℚ := 200000
def BASE_VARIABILITY : ℚ := 0.02
def GLASS_CONSUMPTION : ℚ := 1100
def CULLET_AMOUNT : ℚ := 0.4
def CULLET_SAVINGS : ℚ := 0.0025

def base_power : ℚ := BASE_CONSUMPTION / HOURS_PER_DAY

def spread_production : ℚ := PRODUCTION_QUANTITY / (DATA_POINTS : ℚ)

/-- The array `base_power_series` together with the RNG state it leaves
behind. -/
def base_power_draw (g : Gauss) : List ℚ × RNGState :=
  npNormal g (seedState 48) base_power (base_power * BASE_VARIABILITY) DATA_POINTS

def base_power_series (g : Gauss) : List ℚ := (base_power_draw g).1

/-- The array `production_series`, drawn from the stream positions left over
after `base_power_series`. -/
def production_series (g : Gauss) : List ℚ :=
  (npNormal g (base_power_draw g).2 spread_production
    (spread_production * PRODUCTION_VARIABILITY) DATA_POINTS).1

/-- Embedding of the module-level `power_consumption` array of
`melting_furnace.py`: the series written to the CSV file (not rounded). -/
def power_consumption (g : Gauss) : List ℚ :=
  List.zipWith
    (fun b p =>
      (1 + FURNACE_AGE * AGING_FACTOR) *
        (b + p * GLASS_CONSUMPTION * (DATA_POINTS : ℚ) / HOURS_PER_DAY *
          (1 - DECIMAL_TO_PERCENTAGE * CULLET_AMOUNT * CULLET_SAVINGS)) *
        WATTS_PER_KILOWATT)
    (base_power_series g) (production_series g)

end MeltingFurnace

/-! ## src/machines/lehr_oven/lehr_oven.py
Production-driven archetype, seeded once with 48, no rounding. -/

namespace LehrOven

def HOURS_PER_DAY : ℚ := 24
def WATTS_PER_KILOWATT : ℚ := 1000
def DATA_POINTS : Nat := 1440
def OVEN_AGE : ℚ := 2
def AGING_FACTOR : ℚ := 0.02
def PRODUCTION_QUANTITY : ℚ := 50
def PRODUCTION_VARIABILITY : ℚ := 0.03
def GLASS_CONSUMPTION : ℚ := 10

def spread_production : ℚ := PRODUCTION_QUANTITY / (DATA_POINTS : ℚ)

def production_series (g : Gauss) : List ℚ :=
  (npNormal g (seedState 48) spread_production
    (spread_production * PRODUCTION_VARIABILITY) DATA_POINTS).1

/-- Embedding of the module-level `power_consumption` array of
`lehr_oven.py`: the series written to the CSV file (not rounded). -/
def power_consumption (g : Gauss) : List ℚ :=
  (production_series g).map
    (fun p =>
      (1 + OVEN_AGE * AGING_FACTOR) *
        (p * GLASS_CONSUMPTION * (DATA_POINTS : ℚ) / HOURS_PER_DAY) *
        WATTS_PER_KILOWATT)

end LehrOven

/-! ## src/machines/forehearth/forehearth.py
Production-driven archetype with a per-machine seed `48 + machine_number`.
The production quantity is kept as an explicit argument in `..Q` versions so
that calls with out-of-spec quantities can be stated verbatim;
`generate_data` fixes it to the module constant `PRODUCTION_QUANTITY`. -/

namespace Forehearth

def HOURS_PER_DAY : ℚ := 24
def WATTS_PER_KILOWATT : ℚ := 1000
def NUMBER_OF_MACHINES : Nat := 4
def DATA_POINTS : Nat := 1440
def FOREHEARTH_AGE : ℚ := 2
def AGING_FACTOR : ℚ := 0.02
def PRODUCTION_QUANTITY : ℚ := 50
def PRODUCTION_VARIABILITY : ℚ := 0.03
def GLASS_CONSUMPTION : ℚ := 0.25
def TEMPERATURE_DROP : ℚ := 50

def production_seriesQ (g : Gauss) (quantity : ℚ) (machine_number : Nat) :
    List ℚ :=
  let spread_production := quantity / (DATA_POINTS : ℚ)
  (npNormal g (seedState (48 + machine_number)) spread_production
    (spread_production * PRODUCTION_VARIABILITY) DATA_POINTS).1

/-- The argument of `np.round` in `generate_data`. -/
def pre_roundQ (g : Gauss) (quantity : ℚ) (machine_number : Nat) : List ℚ :=
  (production_seriesQ g quantity machine_number).map
    (fun p =>
      (1 + FOREHEARTH_AGE * AGING_FACTOR) * WATTS_PER_KILOWATT *
        (p * GLASS_CONSUMPTION * TEMPERATURE_DROP * (DATA_POINTS : ℚ) /
          HOURS_PER_DAY))

def generate_dataQ (g : Gauss) (quantity : ℚ) (machine_number : Nat)
    (σ : RNGState) : List ℤ :=
  (pre_roundQ g quantity machine_number).map npRound

/-- Embedding of `generate_data(machine_number)` of `forehearth.py`: the
integer series written to the CSV file.  `σ` is the global RNG state at the
moment of the call; the body starts with `np.random.seed(48 + machine_number)`
and therefore never reads `σ`. -/
def generate_data (g : Gauss) (machine_number : Nat) (σ : RNGState) : List ℤ :=
  generate_dataQ g PRODUCTION_QUANTITY machine_number σ

end Forehearth

/-! ## src/machines/forming_machine/forming_machine.py
Production-driven archetype with per-machine seed `48 + machine_number` and
an optional fault multiplier `1 + FAULT_EXCESS` applied before rounding. -/

namespace FormingMachine

def HOURS_PER_DAY : ℚ := 24
def WATTS_PER_KILOWATT : ℚ := 1000
def NUMBER_OF_MACHINES : Nat := 4
def DATA_POINTS : Nat := 1440
def FAULT_EXCESS : ℚ := 0.2
def PRODUCTION_QUANTITY : ℚ := 50
def PRODUCTION_VARIABILITY : ℚ := 0.01
def GLASS_CONSUMPTION : ℚ := 160

def spread_production : ℚ := PRODUCTION_QUANTITY / (DATA_POINTS : ℚ)

def production_series (g : Gauss) (machine_number : Nat) : List ℚ :=
  (npNormal g (seedState (48 + machine_number)) spread_production
    (spread_production * PRODUCTION_VARIABILITY) DATA_POINTS).1

/-- The `power_consumption` array just before `np.round(...).astype(int)`:
the production-derived power, multiplied by `1 + FAULT_EXCESS` when
`is_faulty` is set. -/
def pre_round (g : Gauss) (machine_number : Nat) ( is_faulty : Bool) :
    List ℚ :=
  (production_series g machine_number).map
    (fun p =>
      let power := p * GLASS_CONSUMPTION * (DATA_POINTS : ℚ) / HOURS_PER_DAY *
        WATTS_PER_KILOWATT
      if is_faulty then power * (1 + FAULT_EXCESS) else power)

/-- Embedding of `generate_data(machine_number, is_faulty)` of
`forming_machine.py`: the integer series written to the CSV file.  `σ` is the
global RNG state at the moment of the call; the body starts with
`np.random.seed(48 + machine_number)` and therefore never reads `σ`. -/
def generate_data (g : Gauss) (machine_number : Nat) ( is_faulty : Bool)
    (σ : RNGState) : List ℤ :=
  (pre_round g machine_number is_faulty).map npRound

/-- Value of the Python loop variable `i` after
`for i in range(NUMBER_OF_MACHINES)` at module level. -/
def final_i : Nat := (List.range NUMBER_OF_MACHINES).foldl (fun _ x => x) 0

/-- The machine number passed to the single faulty call
`generate_data(i + 1, True)` at module level. -/
def faulty_machine_number : Nat := final_i + 1

end FormingMachine

/-! ## src/machines/batch_mixer/batch_mixer.py
Duty-cycle-tiled archetype: a segment of `MIXING_TIME` slots at `batch_size`
and `TRANSFER_TIME` slots at zero (order swapped for odd machine numbers) is
tiled over the day, converted to power, and perturbed with a multiplicative
noise whose standard deviation is proportional to the local value.  The
result is rounded (`np.round(...).astype(int)`) with no clamping. -/

namespace BatchMixer

def HOURS_PER_DAY : ℚ := 24
def WATTS_PER_KILOWATT : ℚ := 1000
def NUMBER_OF_MACHINES : Nat := 2
def DATA_POINTS : Nat := 1440
def VARIABILITY : ℚ := 0.03
def MIXING_TIME : Nat := 3
def TRANSFER_TIME : Nat := 2
def MIXER_POWER : ℚ := 30
def PRODUCTION_QUANTITY : ℚ := 100
def PRODUCTION_YIELD : ℚ := 0.85

def cycle_time : Nat := MIXING_TIME + TRANSFER_TIME

def mixing_percentage : ℚ := (MIXING_TIME : ℚ) / (cycle_time : ℚ)

def production_duration : ℚ := mixing_percentage * (DATA_POINTS : ℚ)

def material_amount : ℚ := PRODUCTION_QUANTITY / PRODUCTION_YIELD

def batch_size : ℚ := (MIXING_TIME : ℚ) * material_amount / production_duration

def production_segment (machine_number : Nat) : List ℚ :=
  if machine_number % 2 = 0 then
    List.replicate MIXING_TIME batch_size ++ List.replicate TRANSFER_TIME 0
  else
    List.replicate TRANSFER_TIME 0 ++ List.replicate MIXING_TIME batch_size

/-- `math.ceil(DATA_POINTS / cycle_time)` (ceiling division on naturals). -/
def production_repetition : Nat := (DATA_POINTS + cycle_time - 1) / cycle_time

def production_series (machine_number : Nat) : List ℚ :=
  (npTile (production_segment machine_number) production_repetition).take
    DATA_POINTS

def power_consumption (machine_number : Nat) : List ℚ :=
  (production_series machine_number).map
    (fun x => x * MIXER_POWER * WATTS_PER_KILOWATT)

/-- The noisy array inside `np.round(...)`:
`np.random.normal(power_consumption, power_consumption * VARIABILITY)`. -/
def variable_power (g : Gauss) (machine_number : Nat) : List ℚ :=
  (npNormalVec g (seedState (48 + machine_number))
    (power_consumption machine_number)
    ((power_consumption machine_number).map (· * VARIABILITY))).1

/-- Embedding of `generate_data(machine_number)` of `batch_mixer.py`: the
integer series written to the CSV file.  `σ` is the global RNG state at the
moment of the call; the body seeds with `48 + machine_number` before drawing
and therefore never reads `σ`. -/
def generate_data (g : Gauss) (machine_number : Nat) (σ : RNGState) :
    List ℤ :=
  (variable_power g machine_number).map npRound

end BatchMixer

/-! ## Solar panels — curve-interpolated archetype
Both solar scripts resample the same 24 hourly irradiance anchors to 1440
per-minute samples.  Anchor abscissas are `np.linspace(0, 24, 24,
endpoint=False) = 0, 1, ..., 23`, i.e. a unit-spaced grid, so both
interpolants are embedded on the unit grid.  `utilities/solar_panel` uses
scipy `PchipInterpolator` (shape-preserving cubic Hermite with the
Fritsch–Carlson derivative rule), `machines/solar_panel` uses the linear
`np.interp`. -/

/-- Embedding of `np.linspace(0, 24, n, endpoint=False)`. -/
def linspace24 (n : Nat) : List ℚ :=
  List.ofFn (fun i : Fin n => 24 * (i : ℚ) / (n : ℚ))

/-- numpy-style sign of a rational. -/
def qsign (x : ℚ) : ℤ :=
  if x < 0 then -1 else if x = 0 then 0 else 1

/-- Slope of `ys` between nodes `j` and `j+1` on the unit grid. -/
def slopeAt (ys : List ℚ) (j : Nat) : ℚ :=
  ys.getD (j + 1) 0 - ys.getD j 0

/-- scipy PCHIP one-sided endpoint derivative (unit spacing): the three-point
estimate `(3*m0 - m1)/2` with shape-preserving clamps. -/
def pchipEdge (m0 m1 : ℚ) : ℚ :=
  let d := (3 * m0 - m1) / 2
  if qsign d ≠ qsign m0 then 0
  else if qsign m0 ≠ qsign m1 ∧ |d| > 3 * |m0| then 3 * m0
  else d

/-- scipy PCHIP interior derivative (unit spacing): zero whenever the two
adjacent slopes do not have the same strict sign, otherwise their weighted
harmonic mean (which is `2*mL*mR/(mL+mR)` on a uniform grid). -/
def pchipInterior (mL mR : ℚ) : ℚ :=
  if mL * mR ≤ 0 then 0 else 2 * mL * mR / (mL + mR)

/-- scipy PCHIP derivative at node `k` of `ys` on the unit grid. -/
def pchipD (ys : List ℚ) (k : Nat) : ℚ :=
  if k = 0 then pchipEdge (slopeAt ys 0) (slopeAt ys 1)
  else if k = ys.length - 1 then
    pchipEdge (slopeAt ys (ys.length - 2)) (slopeAt ys (ys.length - 3))
  else pchipInterior (slopeAt ys (k - 1)) (slopeAt ys k)

/-- Cubic Hermite basis evaluation on `[0,1]` with endpoint values `y0, y1`
and endpoint derivatives `d0, d1`. -/
def hermite (y0 y1 d0 d1 s : ℚ) : ℚ :=
  y0 * (2 * s ^ 3 - 3 * s ^ 2 + 1) + d0 * (s ^ 3 - 2 * s ^ 2 + s) +
    y1 * (-2 * s ^ 3 + 3 * s ^ 2) + d1 * (s ^ 3 - s ^ 2)

/-- Evaluation of the scipy `PchipInterpolator` of `ys` (unit grid) at `t`;
an argument beyond the last node is extrapolated with the last cubic piece,
as scipy does with the default `extrapolate=True`. -/
def pchipEval (ys : List ℚ) (t : ℚ) : ℚ :=
  let k : Nat := min (ys.length - 2) (max 0 ⌊t⌋).toNat
  hermite (ys.getD k 0) (ys.getD (k + 1) 0) (pchipD ys k) (pchipD ys (k + 1))
    (t - (k : ℚ))

/-- Evaluation of `np.interp(t, xs, ys)` for a unit-spaced grid `xs = 0, 1,
..., len-1`: linear between nodes, and the boundary value outside the node
range. -/
def npInterpUnit (ys : List ℚ) (t : ℚ) : ℚ :=
  if t ≤ 0 then ys.getD 0 0
  else if ((ys.length : ℚ) - 1) ≤ t then ys.getD (ys.length - 1) 0
  else
    let k := (⌊t⌋).toNat
    ys.getD k 0 + (t - (k : ℚ)) * (ys.getD (k + 1) 0 - ys.getD k 0)

namespace SolarPanelUtil

def DATA_POINTS : Nat := 1440
def VARIABILITY : ℚ := 0.05
def PANEL_POWER : ℚ := 400
def STANDARD_IRRADIANCE : ℚ := 1000

def HOURLY_GTI : List ℚ :=
  [0, 0, 0, 0, 1.69, 19.98, 55.87, 180.09, 341.57, 489.86, 632.75, 721.39,
   741.11, 722.58, 647.72, 527.44, 384.08, 239.04, 97.32, 37.89, 9.11, 0, 0, 0]

/-- Source constant `PERFORMANCE_RATIO` (renamed only in capitalisation). -/
def performance_ratio : ℚ := 0.8

def target_x : List ℚ := linspace24 DATA_POINTS

/-- Embedding of `interpolated_gti = pchip(target_x)`. -/
def interpolated_gti : List ℚ := target_x.map (pchipEval HOURLY_GTI)

/-- Embedding of `noise = np.random.normal(0, interpolated_gti * VARIABILITY)`
after `np.random.seed(48)`. -/
def noise (g : Gauss) : List ℚ :=
  (npNormalZero g (seedState 48) (interpolated_gti.map (· * VARIABILITY))).1

/-- Embedding of `variable_gti = np.maximum(interpolated_gti + noise, 0)`. -/
def variable_gti (g : Gauss) : List ℚ :=
  (List.zipWith (fun x z => x + z) interpolated_gti (noise g)).map
    (fun v => max v 0)

/-- Embedding of the `power_production` series written to the CSV file by
`utilities/solar_panel/solar_panel.py`. -/
def power_production (g : Gauss) : List ℚ :=
  (variable_gti g).map
    (fun v => PANEL_POWER * (v / STANDARD_IRRADIANCE) * performance_ratio)

end SolarPanelUtil

namespace SolarPanelMach

def DATA_POINTS : Nat := 1440
def VARIABILITY : ℚ := 0.05
def PANEL_POWER : ℚ := 400
def STANDARD_IRRADIANCE : ℚ := 1000

def HOURLY_GTI : List ℚ :=
  [0, 0, 0, 0, 1.69, 19.98, 55.87, 180.09, 341.57, 489.86, 632.75, 721.39,
   741.11, 722.58, 647.72, 527.44, 384.08, 239.04, 97.32, 37.89, 9.11, 0, 0, 0]

/-- Source constant `PERFORMANCE_RATIO` (renamed only in capitalisation). -/
def performance_ratio : ℚ := 0.8

def target_indices : List ℚ := linspace24 DATA_POINTS

/-- Embedding of `smooth_gti = np.interp(target_indices, hour_indices,
HOURLY_GTI)`. -/
def smooth_gti : List ℚ := target_indices.map (npInterpUnit HOURLY_GTI)

/-- Embedding of `noise = np.random.normal(0, smooth_gti * VARIABILITY)`
after `np.random.seed(42)`. -/
def noise (g : Gauss) : List ℚ :=
  (npNormalZero g (seedState 42) (smooth_gti.map (· * VARIABILITY))).1

/-- Embedding of `variable_gti = smooth_gti + noise` followed by
`variable_gti[variable_gti < 0] = 0`. -/
def variable_gti (g : Gauss) : List ℚ :=
  (List.zipWith (fun x z => x + z) smooth_gti (noise g)).map
    (fun v => if v < 0 then 0 else v)

/-- Embedding of the `power_production` series written to the CSV file by
`machines/solar_panel/solar_panel.py`. -/
def power_production (g : Gauss) : List ℚ :=
  (variable_gti g).map
    (fun v => PANEL_POWER * (v / STANDARD_IRRADIANCE) * performance_ratio)

end SolarPanelMach

/-! ## Pointwise characterisations of the embedded series -/

set_option maxRecDepth 4000

theorem Furnace.length_energy (g : Gauss) :
    (Furnace.energy_consumption g).length = 1440 := by
  simp only [Furnace.energy_consumption, npNormal, List.length_map,
    List.length_ofFn, Furnace.num_minutes]

theorem Furnace.getD_energy_nonneg (g : Gauss) {i : Nat} (h : i < 1440) :
    0 ≤ (Furnace.energy_consumption g).getD i 0 := by
  unfold Furnace.energy_consumption
  rw [getD_map_of_lt _ _ (by
    simp only [npNormal, List.length_map, List.length_ofFn, Furnace.num_minutes]
    omega) 0 0]
  split
  · exact le_refl 0
  · exact le_of_not_lt (by assumption)

theorem MeltingFurnace.length_base (g : Gauss) :
    (MeltingFurnace.base_power_series g).length = 1440 := by
  simp only [MeltingFurnace.base_power_series, MeltingFurnace.base_power_draw,
    npNormal, List.length_ofFn, MeltingFurnace.DATA_POINTS]

theorem MeltingFurnace.length_production_mf (g : Gauss) :
    (MeltingFurnace.production_series g).length = 1440 := by
  simp only [MeltingFurnace.production_series, npNormal, List.length_ofFn,
    MeltingFurnace.DATA_POINTS]

theorem MeltingFurnace.length_power_mf (g : Gauss) :
    (MeltingFurnace.power_consumption g).length = 1440 := by
  rw [MeltingFurnace.power_consumption, List.length_zipWith,
    MeltingFurnace.length_base, MeltingFurnace.length_production_mf]
  omega

theorem MeltingFurnace.getD_base (g : Gauss) {i : Nat} (h : i < 1440) :
    (MeltingFurnace.base_power_series g).getD i 0 =
      MeltingFurnace.base_power +
        MeltingFurnace.base_power * MeltingFurnace.BASE_VARIABILITY * g 48 i := by
  unfold MeltingFurnace.base_power_series MeltingFurnace.base_power_draw
  simp only [npNormal]
  rw [getD_ofFn _ h]
  simp [seedState]

theorem MeltingFurnace.getD_production_mf (g : Gauss) {i : Nat} (h : i < 1440) :
    (MeltingFurnace.production_series g).getD i 0 =
      MeltingFurnace.spread_production +
        MeltingFurnace.spread_production * MeltingFurnace.PRODUCTION_VARIABILITY *
          g 48 (1440 + i) := by
  unfold MeltingFurnace.production_series MeltingFurnace.base_power_draw
  simp only [npNormal]
  rw [getD_ofFn _ h]
  simp [seedState, MeltingFurnace.DATA_POINTS]

theorem MeltingFurnace.getD_power_mf (g : Gauss) {i : Nat} (h : i < 1440) :
    (MeltingFurnace.power_consumption g).getD i 0 =
      (1 + MeltingFurnace.FURNACE_AGE * MeltingFurnace.AGING_FACTOR) *
        ((MeltingFurnace.base_power_series g).getD i 0 +
          (MeltingFurnace.production_series g).getD i 0 *
            MeltingFurnace.GLASS_CONSUMPTION * (MeltingFurnace.DATA_POINTS : ℚ) /
            MeltingFurnace.HOURS_PER_DAY *
            (1 - MeltingFurnace.DECIMAL_TO_PERCENTAGE * MeltingFurnace.CULLET_AMOUNT *
              MeltingFurnace.CULLET_SAVINGS)) *
        MeltingFurnace.WATTS_PER_KILOWATT := by
  unfold MeltingFurnace.power_consumption
  rw [getD_zipWith _ _ _ (by rw [MeltingFurnace.length_base]; omega)
    (by rw [MeltingFurnace.length_production_mf]; omega)]

theorem LehrOven.length_production_lo (g : Gauss) :
    (LehrOven.production_series g).length = 1440 := by
  simp only [LehrOven.production_series, npNormal, List.length_ofFn,
    LehrOven.DATA_POINTS]

theorem LehrOven.length_power_lo (g : Gauss) :
    (LehrOven.power_consumption g).length = 1440 := by
  rw [LehrOven.power_consumption, List.length_map, LehrOven.length_production_lo]

theorem LehrOven.getD_production_lo (g : Gauss) {i : Nat} (h : i < 1440) :
    (LehrOven.production_series g).getD i 0 =
      LehrOven.spread_production +
        LehrOven.spread_production * LehrOven.PRODUCTION_VARIABILITY * g 48 i := by
  unfold LehrOven.production_series
  simp only [npNormal]
  rw [getD_ofFn _ h]
  simp [seedState]

theorem LehrOven.getD_power_lo (g : Gauss) {i : Nat} (h : i < 1440) :
    (LehrOven.power_consumption g).getD i 0 =
      (1 + LehrOven.OVEN_AGE * LehrOven.AGING_FACTOR) *
        ((LehrOven.production_series g).getD i 0 * LehrOven.GLASS_CONSUMPTION *
          (LehrOven.DATA_POINTS : ℚ) / LehrOven.HOURS_PER_DAY) *
        LehrOven.WATTS_PER_KILOWATT := by
  unfold LehrOven.power_consumption
  rw [getD_map_of_lt _ _ (by rw [LehrOven.length_production_lo]; omega) 0 0]

theorem Forehearth.length_productionQ (g : Gauss) (q : ℚ) (m : Nat) :
    (Forehearth.production_seriesQ g q m).length = 1440 := by
  simp only [Forehearth.production_seriesQ, npNormal, List.length_ofFn,
    Forehearth.DATA_POINTS]

theorem Forehearth.length_pre_roundQ (g : Gauss) (q : ℚ) (m : Nat) :
    (Forehearth.pre_roundQ g q m).length = 1440 := by
  rw [Forehearth.pre_roundQ, List.length_map, Forehearth.length_productionQ]

theorem Forehearth.length_generate_dataQ (g : Gauss) (q : ℚ) (m : Nat)
    (σ : RNGState) : (Forehearth.generate_dataQ g q m σ).length = 1440 := by
  rw [Forehearth.generate_dataQ, List.length_map, Forehearth.length_pre_roundQ]

theorem Forehearth.getD_productionQ (g : Gauss) (q : ℚ) (m : Nat) {i : Nat}
    (h : i < 1440) :
    (Forehearth.production_seriesQ g q m).getD i 0 =
      q / (Forehearth.DATA_POINTS : ℚ) +
        q / (Forehearth.DATA_POINTS : ℚ) * Forehearth.PRODUCTION_VARIABILITY *
          g (48 + m) i := by
  unfold Forehearth.production_seriesQ
  simp only [npNormal]
  rw [getD_ofFn _ h]
  simp [seedState]

theorem Forehearth.getD_pre_roundQ (g : Gauss) (q : ℚ) (m : Nat) {i : Nat}
    (h : i < 1440) :
    (Forehearth.pre_roundQ g q m).getD i 0 =
      (1 + Forehearth.FOREHEARTH_AGE * Forehearth.AGING_FACTOR) *
        Forehearth.WATTS_PER_KILOWATT *
        ((Forehearth.production_seriesQ g q m).getD i 0 *
          Forehearth.GLASS_CONSUMPTION * Forehearth.TEMPERATURE_DROP *
          (Forehearth.DATA_POINTS : ℚ) / Forehearth.HOURS_PER_DAY) := by
  unfold Forehearth.pre_roundQ
  rw [getD_map_of_lt _ _ (by rw [Forehearth.length_productionQ]; omega) 0 0]

theorem Forehearth.getD_generate_dataQ (g : Gauss) (q : ℚ) (m : Nat)
    (σ : RNGState) {i : Nat} (h : i < 1440) :
    (Forehearth.generate_dataQ g q m σ).getD i 0 =
      npRound ((Forehearth.pre_roundQ g q m).getD i 0) := by
  unfold Forehearth.generate_dataQ
  rw [getD_map_round _ (by rw [Forehearth.length_pre_roundQ]; omega)]

theorem FormingMachine.length_production_fm (g : Gauss) (m : Nat) :
    (FormingMachine.production_series g m).length = 1440 := by
  simp only [FormingMachine.production_series, npNormal, List.length_ofFn,
    FormingMachine.DATA_POINTS]

theorem FormingMachine.length_pre_round (g : Gauss) (m : Nat) (b : Bool) :
    (FormingMachine.pre_round g m b).length = 1440 := by
  rw [FormingMachine.pre_round, List.length_map, FormingMachine.length_production_fm]

theorem FormingMachine.length_generate_data_fm (g : Gauss) (m : Nat) (b : Bool)
    (σ : RNGState) : (FormingMachine.generate_data g m b σ).length = 1440 := by
  rw [FormingMachine.generate_data, List.length_map,
    FormingMachine.length_pre_round]

theorem FormingMachine.getD_production_fm (g : Gauss) (m : Nat) {i : Nat}
    (h : i < 1440) :
    (FormingMachine.production_series g m).getD i 0 =
      FormingMachine.spread_production +
        FormingMachine.spread_production * FormingMachine.PRODUCTION_VARIABILITY *
          g (48 + m) i := by
  unfold FormingMachine.production_series
  simp only [npNormal]
  rw [getD_ofFn _ h]
  simp [seedState]

theorem FormingMachine.getD_pre_round (g : Gauss) (m : Nat) (b : Bool)
    {i : Nat} (h : i < 1440) :
    (FormingMachine.pre_round g m b).getD i 0 =
      (if b then
        (FormingMachine.production_series g m).getD i 0 *
          FormingMachine.GLASS_CONSUMPTION * (FormingMachine.DATA_POINTS : ℚ) /
          FormingMachine.HOURS_PER_DAY * FormingMachine.WATTS_PER_KILOWATT *
          (1 + FormingMachine.FAULT_EXCESS)
      else
        (FormingMachine.production_series g m).getD i 0 *
          FormingMachine.GLASS_CONSUMPTION * (FormingMachine.DATA_POINTS : ℚ) /
          FormingMachine.HOURS_PER_DAY * FormingMachine.WATTS_PER_KILOWATT) := by
  unfold FormingMachine.pre_round
  rw [getD_map_of_lt _ _ (by rw [FormingMachine.length_production_fm]; omega) 0 0]

theorem FormingMachine.getD_generate_data_fm (g : Gauss) (m : Nat) (b : Bool)
    (σ : RNGState) {i : Nat} (h : i < 1440) :
    (FormingMachine.generate_data g m b σ).getD i 0 =
      npRound ((FormingMachine.pre_round g m b).getD i 0) := by
  unfold FormingMachine.generate_data
  rw [getD_map_round _ (by rw [FormingMachine.length_pre_round]; omega)]

theorem BatchMixer.length_segment (m : Nat) :
    (BatchMixer.production_segment m).length = 5 := by
  unfold BatchMixer.production_segment
  split <;>
    simp [BatchMixer.MIXING_TIME, BatchMixer.TRANSFER_TIME]

theorem BatchMixer.repetition_eq : BatchMixer.production_repetition = 288 := rfl

theorem BatchMixer.length_production_bm (m : Nat) :
    (BatchMixer.production_series m).length = 1440 := by
  rw [BatchMixer.production_series, List.length_take, length_npTile,
    BatchMixer.length_segment, BatchMixer.repetition_eq]
  rfl

theorem BatchMixer.length_power_bm (m : Nat) :
    (BatchMixer.power_consumption m).length = 1440 := by
  rw [BatchMixer.power_consumption, List.length_map, BatchMixer.length_production_bm]

theorem BatchMixer.length_variable_power (g : Gauss) (m : Nat) :
    (BatchMixer.variable_power g m).length = 1440 := by
  rw [BatchMixer.variable_power]
  simp only [npNormalVec, List.length_ofFn]
  exact BatchMixer.length_power_bm m

theorem BatchMixer.length_generate_data_bm (g : Gauss) (m : Nat) (σ : RNGState) :
    (BatchMixer.generate_data g m σ).length = 1440 := by
  rw [BatchMixer.generate_data, List.length_map, BatchMixer.length_variable_power]

theorem BatchMixer.getD_production_bm (m : Nat) {i : Nat} (h : i < 1440) :
    (BatchMixer.production_series m).getD i 0 =
      (BatchMixer.production_segment m).getD (i % 5) 0 := by
  unfold BatchMixer.production_series
  rw [getD_take_of_lt _ (show i < BatchMixer.DATA_POINTS from h)
    (by rw [length_npTile, BatchMixer.length_segment, BatchMixer.repetition_eq]; omega)]
  rw [getD_npTile _ _ _
    (by rw [BatchMixer.length_segment, BatchMixer.repetition_eq]; omega)]
  rw [BatchMixer.length_segment]

theorem BatchMixer.getD_power_bm (m : Nat) {i : Nat} (h : i < 1440) :
    (BatchMixer.power_consumption m).getD i 0 =
      (BatchMixer.production_series m).getD i 0 * BatchMixer.MIXER_POWER *
        BatchMixer.WATTS_PER_KILOWATT := by
  unfold BatchMixer.power_consumption
  rw [getD_map_of_lt _ _ (by rw [BatchMixer.length_production_bm]; omega) 0 0]

theorem BatchMixer.getD_variable_power (g : Gauss) (m : Nat) {i : Nat}
    (h : i < 1440) :
    (BatchMixer.variable_power g m).getD i 0 =
      (BatchMixer.power_consumption m).getD i 0 +
        (BatchMixer.power_consumption m).getD i 0 * BatchMixer.VARIABILITY *
          g (48 + m) i := by
  unfold BatchMixer.variable_power
  rw [getD_npNormalVec _ _ _ _ (by rw [BatchMixer.length_power_bm]; omega)]
  rw [getD_map_of_lt _ _ (by rw [BatchMixer.length_power_bm]; omega) 0 0]
  simp [seedState]

theorem BatchMixer.getD_generate_data_bm (g : Gauss) (m : Nat) (σ : RNGState)
    {i : Nat} (h : i < 1440) :
    (BatchMixer.generate_data g m σ).getD i 0 =
      npRound ((BatchMixer.variable_power g m).getD i 0) := by
  unfold BatchMixer.generate_data
  rw [getD_map_round _ (by rw [BatchMixer.length_variable_power]; omega)]

theorem BatchMixer.getD_segment_cases (m j : Nat) (hj : j < 5) :
    (BatchMixer.production_segment m).getD j 0 = 0 ∨
      (BatchMixer.production_segment m).getD j 0 = BatchMixer.batch_size := by
  unfold BatchMixer.production_segment
  split <;> interval_cases j <;>
    simp [BatchMixer.MIXING_TIME, BatchMixer.TRANSFER_TIME, List.getD]

theorem BatchMixer.batch_size_nonneg : 0 ≤ BatchMixer.batch_size := by
  unfold BatchMixer.batch_size BatchMixer.material_amount
    BatchMixer.production_duration BatchMixer.mixing_percentage
  norm_num [BatchMixer.MIXING_TIME, BatchMixer.PRODUCTION_QUANTITY,
    BatchMixer.PRODUCTION_YIELD, BatchMixer.cycle_time,
    BatchMixer.TRANSFER_TIME, BatchMixer.DATA_POINTS]

theorem length_linspace24 (n : Nat) : (linspace24 n).length = n := by
  simp [linspace24]

theorem SolarPanelUtil.length_interpolated :
    SolarPanelUtil.interpolated_gti.length = 1440 := by
  rw [SolarPanelUtil.interpolated_gti, List.length_map,
    SolarPanelUtil.target_x, length_linspace24]
  rfl

theorem SolarPanelUtil.length_noise_su (g : Gauss) :
    (SolarPanelUtil.noise g).length = 1440 := by
  rw [SolarPanelUtil.noise]
  simp only [npNormalZero, List.length_ofFn, List.length_map]
  exact SolarPanelUtil.length_interpolated

theorem SolarPanelUtil.length_variable_su (g : Gauss) :
    (SolarPanelUtil.variable_gti g).length = 1440 := by
  rw [SolarPanelUtil.variable_gti, List.length_map, List.length_zipWith,
    SolarPanelUtil.length_interpolated, SolarPanelUtil.length_noise_su]
  omega

theorem SolarPanelUtil.length_power_su (g : Gauss) :
    (SolarPanelUtil.power_production g).length = 1440 := by
  rw [SolarPanelUtil.power_production, List.length_map,
    SolarPanelUtil.length_variable_su]

theorem SolarPanelUtil.getD_power_nonneg_su (g : Gauss) {i : Nat}
    (h : i < 1440) : 0 ≤ (SolarPanelUtil.power_production g).getD i 0 := by
  have hv : 0 ≤ (SolarPanelUtil.variable_gti g).getD i 0 := by
    unfold SolarPanelUtil.variable_gti
    rw [getD_map_of_lt _ _ (by
      rw [List.length_zipWith, SolarPanelUtil.length_interpolated,
        SolarPanelUtil.length_noise_su]; omega) 0 0]
    exact le_max_right _ 0
  unfold SolarPanelUtil.power_production
  rw [getD_map_of_lt _ _ (by rw [SolarPanelUtil.length_variable_su]; omega) 0 0]
  have h1 : (0 : ℚ) ≤ SolarPanelUtil.PANEL_POWER := by
    norm_num [SolarPanelUtil.PANEL_POWER]
  have h2 : (0 : ℚ) ≤ SolarPanelUtil.STANDARD_IRRADIANCE := by
    norm_num [SolarPanelUtil.STANDARD_IRRADIANCE]
  have h3 : (0 : ℚ) ≤ SolarPanelUtil.performance_ratio := by
    norm_num [SolarPanelUtil.performance_ratio]
  exact mul_nonneg (mul_nonneg h1 (div_nonneg hv h2)) h3

theorem SolarPanelMach.length_smooth :
    SolarPanelMach.smooth_gti.length = 1440 := by
  rw [SolarPanelMach.smooth_gti, List.length_map,
    SolarPanelMach.target_indices, length_linspace24]
  rfl

theorem SolarPanelMach.length_noise_sm (g : Gauss) :
    (SolarPanelMach.noise g).length = 1440 := by
  rw [SolarPanelMach.noise]
  simp only [npNormalZero, List.length_ofFn, List.length_map]
  exact SolarPanelMach.length_smooth

theorem SolarPanelMach.length_variable_sm (g : Gauss) :
    (SolarPanelMach.variable_gti g).length = 1440 := by
  rw [SolarPanelMach.variable_gti, List.length_map, List.length_zipWith,
    SolarPanelMach.length_smooth, SolarPanelMach.length_noise_sm]
  omega

theorem SolarPanelMach.length_power_sm (g : Gauss) :
    (SolarPanelMach.power_production g).length = 1440 := by
  rw [SolarPanelMach.power_production, List.length_map,
    SolarPanelMach.length_variable_sm]

theorem SolarPanelMach.getD_power_nonneg_sm (g : Gauss) {i : Nat}
    (h : i < 1440) : 0 ≤ (SolarPanelMach.power_production g).getD i 0 := by
  have hv : 0 ≤ (SolarPanelMach.variable_gti g).getD i 0 := by
    unfold SolarPanelMach.variable_gti
    rw [getD_map_of_lt _ _ (by
      rw [List.length_zipWith, SolarPanelMach.length_smooth,
        SolarPanelMach.length_noise_sm]; omega) 0 0]
    split
    · exact le_refl 0
    · exact le_of_not_lt (by assumption)
  unfold SolarPanelMach.power_production
  rw [getD_map_of_lt _ _ (by rw [SolarPanelMach.length_variable_sm]; omega) 0 0]
  have h1 : (0 : ℚ) ≤ SolarPanelMach.PANEL_POWER := by
    norm_num [SolarPanelMach.PANEL_POWER]
  have h2 : (0 : ℚ) ≤ SolarPanelMach.STANDARD_IRRADIANCE := by
    norm_num [SolarPanelMach.STANDARD_IRRADIANCE]
  have h3 : (0 : ℚ) ≤ SolarPanelMach.performance_ratio := by
    norm_num [SolarPanelMach.performance_ratio]
  exact mul_nonneg (mul_nonneg h1 (div_nonneg hv h2)) h3

/-! ## Claim theorems -/

/-- Concrete standard-normal stream used as a witness input: every draw 0. -/
def gZero : Gauss := fun _ _ => 0

/-- Concrete standard-normal stream used in counterexamples: every draw is
the (valid, but astronomically unlikely) value −1000. -/
def gNeg : Gauss := fun _ _ => -1000

/-- C1: for a fixed machine index and the fixed module constants, two
independent invocations of `generate_data` produce bit-identical series.
Each routine begins with `np.random.seed(48 + machine_number)`, so its result
is independent of the global RNG state `σ1`/`σ2` it is invoked under — no
random state carries over between calls. -/
theorem c1_generate_deterministic (g : Gauss) (m : Nat) (b : Bool)
    (σ1 σ2 : RNGState) :
    BatchMixer.generate_data g m σ1 = BatchMixer.generate_data g m σ2 ∧
    Forehearth.generate_data g m σ1 = Forehearth.generate_data g m σ2 ∧
    FormingMachine.generate_data g m b σ1 = FormingMachine.generate_data g m b σ2 :=
  ⟨rfl, rfl, rfl⟩

/-- C5: with the same machine index (hence the same seed and the same
production draws), the pre-rounding faulty forming-machine series is exactly
`1.2` times the non-faulty pre-rounding series at every sample. -/
theorem c5_fault_overlay (g : Gauss) (m : Nat) :
    FormingMachine.pre_round g m true =
      (FormingMachine.pre_round g m false).map (fun x => (1.2 : ℚ) * x) := by
  unfold FormingMachine.pre_round
  rw [List.map_map]
  refine List.map_congr_left (fun p _ => ?_)
  simp only [Function.comp, if_true, Bool.false_eq_true, if_false]
  norm_num [FormingMachine.FAULT_EXCESS]
  ring

/-- C7: every emitted series has exactly `N = 1440` elements: the constant
furnace, the three production-driven machines, the duty-cycle-tiled batch
mixer (tiled `ceil(1440/5) = 288` times and truncated to 1440), and the
curve-interpolated solar resampling of the 24 hourly anchors. -/
theorem c7_length_invariant (g : Gauss) (m : Nat) (b : Bool) (σ : RNGState) :
    (Furnace.energy_consumption g).length = 1440 ∧
    (MeltingFurnace.power_consumption g).length = 1440 ∧
    (LehrOven.power_consumption g).length = 1440 ∧
    (Forehearth.generate_data g m σ).length = 1440 ∧
    (FormingMachine.generate_data g m b σ).length = 1440 ∧
    (BatchMixer.generate_data g m σ).length = 1440 ∧
    SolarPanelUtil.interpolated_gti.length = 1440 ∧
    (SolarPanelUtil.power_production g).length = 1440 ∧
    (SolarPanelMach.power_production g).length = 1440 :=
  ⟨Furnace.length_energy g, MeltingFurnace.length_power_mf g,
   LehrOven.length_power_lo g,
   Forehearth.length_generate_dataQ g Forehearth.PRODUCTION_QUANTITY m σ,
   FormingMachine.length_generate_data_fm g m b σ,
   BatchMixer.length_generate_data_bm g m σ,
   SolarPanelUtil.length_interpolated,
   SolarPanelUtil.length_power_su g, SolarPanelMach.length_power_sm g⟩

/-- C3 counterexample: with `mixMinutes = 3`, `transferMinutes = 2`,
`N = 1440` and daily material `100/0.85` t, the code's batch size satisfies
`batch_size * mixMinutes * (N / cycleLength) = 3 * material_amount`, which is
not `material_amount` — the claimed identity is off by the factor
`mixMinutes`. -/
theorem c3_counterexample :
    BatchMixer.batch_size * (BatchMixer.MIXING_TIME : ℚ) *
        ((BatchMixer.DATA_POINTS : ℚ) / (BatchMixer.cycle_time : ℚ)) =
      3 * BatchMixer.material_amount ∧
    BatchMixer.batch_size * (BatchMixer.MIXING_TIME : ℚ) *
        ((BatchMixer.DATA_POINTS : ℚ) / (BatchMixer.cycle_time : ℚ)) ≠
      BatchMixer.material_amount := by
  constructor <;>
    norm_num [BatchMixer.batch_size, BatchMixer.material_amount,
      BatchMixer.production_duration, BatchMixer.mixing_percentage,
      BatchMixer.MIXING_TIME, BatchMixer.cycle_time, BatchMixer.TRANSFER_TIME,
      BatchMixer.DATA_POINTS, BatchMixer.PRODUCTION_QUANTITY,
      BatchMixer.PRODUCTION_YIELD]

theorem sum_npTile (seg : List ℚ) (k : Nat) :
    (npTile seg k).sum = (k : ℚ) * seg.sum := by
  induction k with
  | zero => simp [npTile]
  | succ k ih =>
    simp only [npTile, List.replicate_succ, List.flatten_cons, List.sum_append]
    simp only [npTile] at ih
    rw [ih]
    push_cast
    ring

theorem BatchMixer.production_series_eq_tile (m : Nat) :
    BatchMixer.production_series m =
      npTile (BatchMixer.production_segment m) 288 := by
  unfold BatchMixer.production_series
  rw [BatchMixer.repetition_eq]
  apply List.take_of_length_le
  rw [length_npTile, BatchMixer.length_segment]
  norm_num [BatchMixer.DATA_POINTS]

theorem BatchMixer.sum_segment (m : Nat) :
    (BatchMixer.production_segment m).sum = 3 * BatchMixer.batch_size := by
  unfold BatchMixer.production_segment
  split <;>
    simp [BatchMixer.MIXING_TIME, BatchMixer.TRANSFER_TIME] <;> ring

/-- C3 amended: one batch is mixed per cycle, so the conserved identity is
`batch_size * (N / cycleLength) = material_amount` (288 cycles per day); the
noiseless tiled production series consequently sums to
`mixMinutes * material_amount`, because each batch occupies `mixMinutes`
slots at the value `batch_size`. -/
theorem c3_amended_conservation :
    BatchMixer.batch_size *
        ((BatchMixer.DATA_POINTS : ℚ) / (BatchMixer.cycle_time : ℚ)) =
      BatchMixer.material_amount ∧
    (BatchMixer.production_series 0).sum =
      (BatchMixer.MIXING_TIME : ℚ) * BatchMixer.material_amount ∧
    (BatchMixer.production_series 1).sum =
      (BatchMixer.MIXING_TIME : ℚ) * BatchMixer.material_amount := by
  refine ⟨?_, ?_, ?_⟩
  · norm_num [BatchMixer.batch_size, BatchMixer.material_amount,
      BatchMixer.production_duration, BatchMixer.mixing_percentage,
      BatchMixer.MIXING_TIME, BatchMixer.cycle_time, BatchMixer.TRANSFER_TIME,
      BatchMixer.DATA_POINTS, BatchMixer.PRODUCTION_QUANTITY,
      BatchMixer.PRODUCTION_YIELD]
  all_goals
    rw [BatchMixer.production_series_eq_tile, sum_npTile, BatchMixer.sum_segment]
    norm_num [BatchMixer.batch_size, BatchMixer.material_amount,
      BatchMixer.production_duration, BatchMixer.mixing_percentage,
      BatchMixer.MIXING_TIME, BatchMixer.cycle_time, BatchMixer.TRANSFER_TIME,
      BatchMixer.DATA_POINTS, BatchMixer.PRODUCTION_QUANTITY,
      BatchMixer.PRODUCTION_YIELD]

theorem Forehearth.generateQ_zero_quantity (g : Gauss) (m : Nat)
    (σ : RNGState) :
    Forehearth.generate_dataQ g 0 m σ = List.replicate 1440 (0 : ℤ) := by
  apply List.ext_getElem
  · rw [Forehearth.length_generate_dataQ, List.length_replicate]
  · intro i h1 h2
    have hi : i < 1440 := by
      rw [Forehearth.length_generate_dataQ] at h1
      exact h1
    rw [← List.getD_eq_getElem _ 0 h1, ← List.getD_eq_getElem _ 0 h2]
    rw [Forehearth.getD_generate_dataQ g 0 m σ hi,
      Forehearth.getD_pre_roundQ g 0 m hi, Forehearth.getD_productionQ g 0 m hi]
    have hr : (List.replicate 1440 (0 : ℤ)).getD i 0 = 0 := by
      rw [List.getD_eq_getElem _ _ (by rw [List.length_replicate]; exact hi),
        List.getElem_replicate]
    rw [hr]
    have ha : (1 + Forehearth.FOREHEARTH_AGE * Forehearth.AGING_FACTOR) *
        Forehearth.WATTS_PER_KILOWATT *
        ((0 / (Forehearth.DATA_POINTS : ℚ) +
          0 / (Forehearth.DATA_POINTS : ℚ) * Forehearth.PRODUCTION_VARIABILITY *
            g (48 + m) i) *
          Forehearth.GLASS_CONSUMPTION * Forehearth.TEMPERATURE_DROP *
          (Forehearth.DATA_POINTS : ℚ) / Forehearth.HOURS_PER_DAY) = 0 := by
      ring
    rw [ha]
    exact npRound_zero

/-- C4 counterexample: a zero production quantity is an invalid
`ShapingParameters` value (quantities must be positive), yet the forehearth
generation call does not fail: it runs to completion and emits a full
1440-sample series (all zeros, since the noise scale `spread * variability`
is then exactly zero).  No validation error is raised before sampling. -/
theorem c4_counterexample :
    (Forehearth.generate_dataQ gZero 0 0 (seedState 0)).length = 1440 ∧
    Forehearth.generate_dataQ gZero 0 0 (seedState 0) =
      List.replicate 1440 (0 : ℤ) :=
  ⟨Forehearth.length_generate_dataQ gZero 0 0 (seedState 0),
   Forehearth.generateQ_zero_quantity gZero 0 (seedState 0)⟩

/-- C4 amended: the generation code performs no parameter validation at all:
an invalid shaping parameter (here a zero production quantity) is silently
accepted and the call still emits a complete 1440-sample series, instead of
failing fast with a validation error before sampling. -/
theorem c4_amended_no_validation (g : Gauss) (m : Nat) (σ : RNGState) :
    (Forehearth.generate_dataQ g 0 m σ).length = 1440 ∧
    Forehearth.generate_dataQ g 0 m σ = List.replicate 1440 (0 : ℤ) :=
  ⟨Forehearth.length_generate_dataQ g 0 m σ,
   Forehearth.generateQ_zero_quantity g m σ⟩

/-- C2 counterexample: the batch mixer applies no clamping after noise
injection, so a sufficiently negative Gaussian draw (here −1000 standard
units, within the support of a Gaussian) drives the first emitted sample of
machine 0 below zero: the non-negativity claim fails for the unclamped
generators. -/
theorem c2_counterexample :
    (BatchMixer.generate_data gNeg 0 (seedState 0)).getD 0 0 < 0 := by
  rw [BatchMixer.getD_generate_data_bm _ _ _ (by norm_num),
    BatchMixer.getD_variable_power _ _ (by norm_num),
    BatchMixer.getD_power_bm _ (by norm_num),
    BatchMixer.getD_production_bm _ (by norm_num)]
  have hseg : (BatchMixer.production_segment 0).getD (0 % 5) 0 =
      BatchMixer.batch_size := by
    norm_num [BatchMixer.production_segment, BatchMixer.MIXING_TIME,
      BatchMixer.TRANSFER_TIME, List.getD, List.replicate]
  rw [hseg]
  apply npRound_neg_of_le
  norm_num [gNeg, BatchMixer.batch_size, BatchMixer.material_amount,
    BatchMixer.production_duration, BatchMixer.mixing_percentage,
    BatchMixer.MIXING_TIME, BatchMixer.cycle_time, BatchMixer.TRANSFER_TIME,
    BatchMixer.DATA_POINTS, BatchMixer.PRODUCTION_QUANTITY,
    BatchMixer.PRODUCTION_YIELD, BatchMixer.MIXER_POWER,
    BatchMixer.WATTS_PER_KILOWATT, BatchMixer.VARIABILITY]

/-- C2 amended: non-negativity holds unconditionally for the two generators
that clamp (the constant furnace and both solar-panel scripts); for the
remaining generators, which never clamp, every emitted value is non-negative
provided every standard-normal draw is at least `-100/3` (the perturbation
never reaching `-1/relativeStdDev` standard units for any of the configured
variabilities 0.01–0.03); without such a bound a negative sample can be
emitted (see the counterexample). -/
theorem c2_amended_nonneg (g : Gauss) (σ : RNGState) (m i : Nat) (b : Bool)
    (hg : ∀ s j : Nat, -(100/3 : ℚ) ≤ g s j) (hi : i < 1440) :
    0 ≤ (Furnace.energy_consumption g).getD i 0 ∧
    0 ≤ (SolarPanelUtil.power_production g).getD i 0 ∧
    0 ≤ (SolarPanelMach.power_production g).getD i 0 ∧
    0 ≤ (MeltingFurnace.power_consumption g).getD i 0 ∧
    0 ≤ (LehrOven.power_consumption g).getD i 0 ∧
    0 ≤ (Forehearth.generate_data g m σ).getD i 0 ∧
    0 ≤ (FormingMachine.generate_data g m b σ).getD i 0 ∧
    0 ≤ (BatchMixer.generate_data g m σ).getD i 0 := by
  refine ⟨Furnace.getD_energy_nonneg g hi, SolarPanelUtil.getD_power_nonneg_su g hi,
    SolarPanelMach.getD_power_nonneg_sm g hi, ?_, ?_, ?_, ?_, ?_⟩
  · rw [MeltingFurnace.getD_power_mf g hi, MeltingFurnace.getD_base g hi,
      MeltingFurnace.getD_production_mf g hi]
    have h1 := hg 48 i
    have h2 := hg 48 (1440 + i)
    unfold MeltingFurnace.base_power MeltingFurnace.spread_production
    norm_num [MeltingFurnace.FURNACE_AGE, MeltingFurnace.AGING_FACTOR,
      MeltingFurnace.BASE_CONSUMPTION, MeltingFurnace.HOURS_PER_DAY,
      MeltingFurnace.PRODUCTION_QUANTITY, MeltingFurnace.DATA_POINTS,
      MeltingFurnace.BASE_VARIABILITY, MeltingFurnace.PRODUCTION_VARIABILITY,
      MeltingFurnace.GLASS_CONSUMPTION, MeltingFurnace.DECIMAL_TO_PERCENTAGE,
      MeltingFurnace.CULLET_AMOUNT, MeltingFurnace.CULLET_SAVINGS,
      MeltingFurnace.WATTS_PER_KILOWATT]
    nlinarith [h1, h2]
  · rw [LehrOven.getD_power_lo g hi, LehrOven.getD_production_lo g hi]
    have h1 := hg 48 i
    unfold LehrOven.spread_production
    norm_num [LehrOven.OVEN_AGE, LehrOven.AGING_FACTOR,
      LehrOven.PRODUCTION_QUANTITY, LehrOven.DATA_POINTS,
      LehrOven.PRODUCTION_VARIABILITY, LehrOven.GLASS_CONSUMPTION,
      LehrOven.HOURS_PER_DAY, LehrOven.WATTS_PER_KILOWATT]
    nlinarith [h1]
  · rw [show Forehearth.generate_data g m σ =
      Forehearth.generate_dataQ g Forehearth.PRODUCTION_QUANTITY m σ from rfl]
    rw [Forehearth.getD_generate_dataQ _ _ _ _ hi]
    apply npRound_nonneg
    rw [Forehearth.getD_pre_roundQ _ _ _ hi, Forehearth.getD_productionQ _ _ _ hi]
    have h1 := hg (48 + m) i
    norm_num [Forehearth.FOREHEARTH_AGE, Forehearth.AGING_FACTOR,
      Forehearth.PRODUCTION_QUANTITY, Forehearth.DATA_POINTS,
      Forehearth.PRODUCTION_VARIABILITY, Forehearth.GLASS_CONSUMPTION,
      Forehearth.TEMPERATURE_DROP, Forehearth.HOURS_PER_DAY,
      Forehearth.WATTS_PER_KILOWATT]
    nlinarith [h1]
  · rw [FormingMachine.getD_generate_data_fm _ _ _ _ hi]
    apply npRound_nonneg
    rw [FormingMachine.getD_pre_round _ _ _ hi, FormingMachine.getD_production_fm _ _ hi]
    have h1 := hg (48 + m) i
    unfold FormingMachine.spread_production
    cases b <;>
      norm_num [FormingMachine.FAULT_EXCESS, FormingMachine.PRODUCTION_QUANTITY,
        FormingMachine.DATA_POINTS, FormingMachine.PRODUCTION_VARIABILITY,
        FormingMachine.GLASS_CONSUMPTION, FormingMachine.HOURS_PER_DAY,
        FormingMachine.WATTS_PER_KILOWATT] <;>
      nlinarith [h1]
  · rw [BatchMixer.getD_generate_data_bm _ _ _ hi]
    apply npRound_nonneg
    rw [BatchMixer.getD_variable_power _ _ hi, BatchMixer.getD_power_bm _ hi,
      BatchMixer.getD_production_bm _ hi]
    have h1 := hg (48 + m) i
    have hmod : i % 5 < 5 := Nat.mod_lt _ (by norm_num)
    have hb := BatchMixer.batch_size_nonneg
    rcases BatchMixer.getD_segment_cases m (i % 5) hmod with hs | hs <;> rw [hs]
    · norm_num
    · have hfact :
        BatchMixer.batch_size * BatchMixer.MIXER_POWER * BatchMixer.WATTS_PER_KILOWATT +
          BatchMixer.batch_size * BatchMixer.MIXER_POWER * BatchMixer.WATTS_PER_KILOWATT *
            BatchMixer.VARIABILITY * g (48 + m) i =
        BatchMixer.batch_size * BatchMixer.MIXER_POWER * BatchMixer.WATTS_PER_KILOWATT *
          (1 + BatchMixer.VARIABILITY * g (48 + m) i) := by ring
      rw [hfact]
      apply mul_nonneg
      · apply mul_nonneg (mul_nonneg hb (by norm_num [BatchMixer.MIXER_POWER]))
        norm_num [BatchMixer.WATTS_PER_KILOWATT]
      · have hv : BatchMixer.VARIABILITY = 3/100 := by
          norm_num [BatchMixer.VARIABILITY]
        rw [hv]
        linarith

/-- C2 amended, witness: the all-zero draw stream satisfies the draw bound,
and the batch-mixer sample at index 0 of machine 0 is then non-negative. -/
theorem c2_amended_nonneg_witness :
    (∀ s j : Nat, -(100/3 : ℚ) ≤ gZero s j) ∧
    0 ≤ (BatchMixer.generate_data gZero 0 (seedState 0)).getD 0 0 := by
  have hg : ∀ s j : Nat, -(100/3 : ℚ) ≤ gZero s j := fun s j => by
    norm_num [gZero]
  exact ⟨hg,
    (c2_amended_nonneg gZero (seedState 0) 0 0 false hg
      (by norm_num)).2.2.2.2.2.2.2⟩

/-- C6: in the three production-driven generators that carry the adjustment
(forehearth, lehr oven, melting furnace — the generators the claim cites),
each sample is the production-derived power multiplied by the age-based wear
factor `1 + age * agingFactor`; in the melting furnace the production-derived
term additionally carries the recycled-content savings factor
`1 - 100 * culletAmount * culletSavings` (its separate base-load term carries
only the wear factor).  With the configured constants all these multipliers
are non-negative (`1.04`, `1.04`, `1.1` and `0.9`). -/
theorem c6_multiplier_structure (g : Gauss) (m i : Nat) (hi : i < 1440) :
    (Forehearth.pre_roundQ g Forehearth.PRODUCTION_QUANTITY m).getD i 0 =
      (1 + Forehearth.FOREHEARTH_AGE * Forehearth.AGING_FACTOR) *
        Forehearth.WATTS_PER_KILOWATT *
        ((Forehearth.production_seriesQ g Forehearth.PRODUCTION_QUANTITY m).getD i 0 *
          Forehearth.GLASS_CONSUMPTION * Forehearth.TEMPERATURE_DROP *
          (Forehearth.DATA_POINTS : ℚ) / Forehearth.HOURS_PER_DAY) ∧
    (LehrOven.power_consumption g).getD i 0 =
      (1 + LehrOven.OVEN_AGE * LehrOven.AGING_FACTOR) *
        ((LehrOven.production_series g).getD i 0 * LehrOven.GLASS_CONSUMPTION *
          (LehrOven.DATA_POINTS : ℚ) / LehrOven.HOURS_PER_DAY) *
        LehrOven.WATTS_PER_KILOWATT ∧
    (MeltingFurnace.power_consumption g).getD i 0 =
      (1 + MeltingFurnace.FURNACE_AGE * MeltingFurnace.AGING_FACTOR) *
        ((MeltingFurnace.base_power_series g).getD i 0 +
          (MeltingFurnace.production_series g).getD i 0 *
            MeltingFurnace.GLASS_CONSUMPTION * (MeltingFurnace.DATA_POINTS : ℚ) /
            MeltingFurnace.HOURS_PER_DAY *
            (1 - MeltingFurnace.DECIMAL_TO_PERCENTAGE *
              MeltingFurnace.CULLET_AMOUNT * MeltingFurnace.CULLET_SAVINGS)) *
        MeltingFurnace.WATTS_PER_KILOWATT ∧
    0 ≤ 1 + Forehearth.FOREHEARTH_AGE * Forehearth.AGING_FACTOR ∧
    0 ≤ 1 + LehrOven.OVEN_AGE * LehrOven.AGING_FACTOR ∧
    0 ≤ 1 + MeltingFurnace.FURNACE_AGE * MeltingFurnace.AGING_FACTOR ∧
    0 ≤ 1 - MeltingFurnace.DECIMAL_TO_PERCENTAGE *
          MeltingFurnace.CULLET_AMOUNT * MeltingFurnace.CULLET_SAVINGS := by
  refine ⟨Forehearth.getD_pre_roundQ g _ m hi, LehrOven.getD_power_lo g hi,
    MeltingFurnace.getD_power_mf g hi, ?_, ?_, ?_, ?_⟩
  · norm_num [Forehearth.FOREHEARTH_AGE, Forehearth.AGING_FACTOR]
  · norm_num [LehrOven.OVEN_AGE, LehrOven.AGING_FACTOR]
  · norm_num [MeltingFurnace.FURNACE_AGE, MeltingFurnace.AGING_FACTOR]
  · norm_num [MeltingFurnace.DECIMAL_TO_PERCENTAGE,
      MeltingFurnace.CULLET_AMOUNT, MeltingFurnace.CULLET_SAVINGS]

/-- C6 witness: the hypothesis `i < 1440` holds at `i = 0`, and the cullet
savings multiplier is indeed non-negative there. -/
theorem c6_multiplier_structure_witness :
    (0 : Nat) < 1440 ∧
    0 ≤ 1 - MeltingFurnace.DECIMAL_TO_PERCENTAGE *
          MeltingFurnace.CULLET_AMOUNT * MeltingFurnace.CULLET_SAVINGS :=
  ⟨by norm_num,
   (c6_multiplier_structure gZero 0 0 (by norm_num)).2.2.2.2.2.2⟩

/-- C8: at every duty-cycle slot whose noiseless base power is exactly 0 (a
transfer slot), the batch-mixer value after noise injection is also exactly
0: the Gaussian standard deviation there is `base * relativeStdDev = 0`, and
numpy's `normal` with zero scale returns the mean exactly. -/
theorem c8_idle_zero (g : Gauss) (σ : RNGState) (m i : Nat) (hi : i < 1440)
    (hbase : (BatchMixer.power_consumption m).getD i 0 = 0) :
    (BatchMixer.generate_data g m σ).getD i 0 = 0 := by
  rw [BatchMixer.getD_generate_data_bm _ _ _ hi,
    BatchMixer.getD_variable_power _ _ hi, hbase]
  have h0 : (0 : ℚ) + 0 * BatchMixer.VARIABILITY * g (48 + m) i = 0 := by ring
  rw [h0]
  exact npRound_zero

/-- C8 witness: index 3 is a transfer slot of machine 0 (segment
`[b, b, b, 0, 0]`), its base power is 0, and the emitted value there is 0. -/
theorem c8_idle_zero_witness :
    (3 : Nat) < 1440 ∧
    (BatchMixer.power_consumption 0).getD 3 0 = 0 ∧
    (BatchMixer.generate_data gZero 0 (seedState 0)).getD 3 0 = 0 := by
  have hb : (BatchMixer.power_consumption 0).getD 3 0 = 0 := by
    rw [BatchMixer.getD_power_bm _ (by norm_num),
      BatchMixer.getD_production_bm _ (by norm_num)]
    norm_num [BatchMixer.production_segment, BatchMixer.MIXING_TIME,
      BatchMixer.TRANSFER_TIME, List.getD, List.replicate]
  exact ⟨by norm_num, hb,
    c8_idle_zero gZero (seedState 0) 0 3 (by norm_num) hb⟩

/-- C9 counterexample: the forming machine rounds without any preceding
clamping, so a sufficiently negative Gaussian draw leaves a negative integer
in the emitted series — rounding does not happen "after clamping", because
no clamping exists in the machines that round. -/
theorem c9_counterexample :
    (FormingMachine.generate_data gNeg 0 false (seedState 0)).getD 0 0 < 0 := by
  rw [FormingMachine.getD_generate_data_fm _ _ _ _ (by norm_num),
    FormingMachine.getD_pre_round _ _ _ (by norm_num),
    FormingMachine.getD_production_fm _ _ (by norm_num)]
  apply npRound_neg_of_le
  norm_num [gNeg, FormingMachine.spread_production,
    FormingMachine.PRODUCTION_QUANTITY, FormingMachine.DATA_POINTS,
    FormingMachine.PRODUCTION_VARIABILITY, FormingMachine.GLASS_CONSUMPTION,
    FormingMachine.HOURS_PER_DAY, FormingMachine.WATTS_PER_KILOWATT]

/-- C9 amended: the three machines that emit integer Watts (forming machine,
forehearth, batch mixer) all apply the same rounding function `npRound`
(numpy's round-half-to-even) as the very last step of the pipeline, directly
on the noisy series; no clamping precedes the rounding (see the
counterexample for a negative emitted integer).  The last conjuncts
characterise the rounding as round-half-to-even. -/
theorem c9_amended_rounding (g : Gauss) (σ : RNGState) (m : Nat) (b : Bool)
    (n : ℤ) :
    FormingMachine.generate_data g m b σ =
      (FormingMachine.pre_round g m b).map npRound ∧
    Forehearth.generate_data g m σ =
      (Forehearth.pre_roundQ g Forehearth.PRODUCTION_QUANTITY m).map npRound ∧
    BatchMixer.generate_data g m σ =
      (BatchMixer.variable_power g m).map npRound ∧
    npRound ((n : ℚ) + 1/2) = (if 2 ∣ n then n else n + 1) ∧
    npRound (5/2 : ℚ) = 2 ∧ npRound (3/2 : ℚ) = 2 ∧ npRound (1/2 : ℚ) = 0 := by
  refine ⟨rfl, rfl, rfl, npRound_half_even n, ?_, ?_, ?_⟩
  · have h := npRound_half_even 2
    norm_num at h
    convert h using 2
  · have h := npRound_half_even 1
    norm_num at h
    convert h using 2
  · have h := npRound_half_even 0
    norm_num at h
    convert h using 2

/-- Concrete standard-normal stream whose draws are the same for every seed,
chosen so that each pre-rounding forming-machine sample is exactly 5 W
(non-faulty) and 6 W (faulty). -/
def gShared : Gauss := fun _ _ => -199997/2000

/-- C10 counterexample: distinctness of the seeds alone does not make the
faulty forming-machine output differ from the `1.2`-scaled output of a
non-faulty machine.  Under a draw stream that happens to coincide across
seeds (`gShared`), the faulty run (machine number 4, seed 52) emits exactly
`1.2` times the emitted series of non-faulty machine 0 (seed 48), so the
"consequently the faulty output is not the 1.2-scaled version of any
non-faulty series" part of the claim does not follow from the code. -/
theorem c10_counterexample :
    (FormingMachine.generate_data gShared 4 true (seedState 0)).map
        (fun z : ℤ => (z : ℚ)) =
      (FormingMachine.generate_data gShared 0 false (seedState 0)).map
        (fun z : ℤ => (1.2 : ℚ) * (z : ℚ)) := by
  apply List.ext_getElem
  · rw [List.length_map, List.length_map, FormingMachine.length_generate_data_fm,
      FormingMachine.length_generate_data_fm]
  · intro i h1 h2
    have hi : i < 1440 := by
      rw [List.length_map, FormingMachine.length_generate_data_fm] at h1
      exact h1
    rw [← List.getD_eq_getElem _ 0 h1, ← List.getD_eq_getElem _ 0 h2]
    rw [getD_map_int_cast _ _
        (by rw [FormingMachine.length_generate_data_fm]; omega) 0,
      getD_map_int_cast _ _
        (by rw [FormingMachine.length_generate_data_fm]; omega) 0]
    rw [FormingMachine.getD_generate_data_fm _ _ _ _ hi,
      FormingMachine.getD_generate_data_fm _ _ _ _ hi,
      FormingMachine.getD_pre_round _ _ _ hi,
      FormingMachine.getD_pre_round _ _ _ hi,
      FormingMachine.getD_production_fm _ _ hi,
      FormingMachine.getD_production_fm _ _ hi]
    have hg4 : gShared (48 + 4) i = -199997/2000 := rfl
    have hg0 : gShared (48 + 0) i = -199997/2000 := rfl
    rw [hg4, hg0]
    norm_num [FormingMachine.spread_production,
      FormingMachine.PRODUCTION_QUANTITY, FormingMachine.DATA_POINTS,
      FormingMachine.PRODUCTION_VARIABILITY, FormingMachine.GLASS_CONSUMPTION,
      FormingMachine.HOURS_PER_DAY, FormingMachine.WATTS_PER_KILOWATT,
      FormingMachine.FAULT_EXCESS]
    rw [show (6 : ℚ) = ((6 : ℤ) : ℚ) by norm_num,
      show (5 : ℚ) = ((5 : ℤ) : ℚ) by norm_num,
      npRound_intCast, npRound_intCast]
    norm_num

/-- C10 amended: the single faulty forming-machine run is generated with
machine number `final_i + 1 = NUMBER_OF_MACHINES = 4` (one past the
non-faulty indices 0..3) and therefore with seed `48 + 4 = 52`, a seed shared
with none of the non-faulty runs (seeds 48..51).  Whether the faulty output
coincides with a `1.2`-scaled non-faulty series is, however, a property of
the drawn values, not of the seeds alone (see the counterexample). -/
theorem c10_amended_seed :
    FormingMachine.faulty_machine_number = FormingMachine.NUMBER_OF_MACHINES ∧
    48 + FormingMachine.faulty_machine_number = 52 ∧
    ∀ k : Nat, k < FormingMachine.NUMBER_OF_MACHINES → 48 + k ≠ 52 := by
  refine ⟨rfl, rfl, ?_⟩
  intro k hk
  have h4 : FormingMachine.NUMBER_OF_MACHINES = 4 := rfl
  omega

/-- C10 amended, witness: the seed of non-faulty machine 0 differs from the
faulty seed 52. -/
theorem c10_amended_seed_witness :
    (0 : Nat) < FormingMachine.NUMBER_OF_MACHINES ∧ 48 + 0 ≠ 52 :=
  ⟨by norm_num [FormingMachine.NUMBER_OF_MACHINES],
   c10_amended_seed.2.2 0 (by norm_num [FormingMachine.NUMBER_OF_MACHINES])⟩
